import Mathlib

/-!
Verification of the device sign-out coordination flow of
`src/components/views/settings/tabs/user/SessionManagerTab.tsx`
(the `useSignOut` hook, in particular `onSignOutOtherDevices`).

The asynchronous function is embedded shallowly: the behaviour of the
external collaborators for one call (delegated-auth URL, confirmation
dialog, delegated-auth logout dialog, interactive-auth deletion API,
resolution callback) is a record `Env`; a call is then a pure function
from the current `signingOutDeviceIds` state and the requested device
ids to a `RunResult` holding the trace of observable events, the final
state, and whether the returned promise fulfils or rejects.
-/

/-- Device identifiers are opaque strings (`ExtendedDevice["device_id"]`). -/
abbrev DeviceId := String

/-- JS truthiness of `delegatedAuthAccountUrl : string | undefined` as used by
the guards `if (delegatedAuthAccountUrl ...)`: `undefined` and the empty
string are falsy, any other string is truthy. -/
def truthyUrl : Option String → Bool
  | none => false
  | some s => !(s == "")

instance (ε α : Type) [DecidableEq ε] [DecidableEq α] : DecidableEq (Except ε α) :=
  fun x y =>
    match x, y with
    | .ok a, .ok b =>
        if h : a = b then isTrue (by rw [h]) else isFalse (fun hc => h (by injection hc))
    | .error a, .error b =>
        if h : a = b then isTrue (by rw [h]) else isFalse (fun hc => h (by injection hc))
    | .ok _, .error _ => isFalse (fun hc => Except.noConfusion hc)
    | .error _, .ok _ => isFalse (fun hc => Except.noConfusion hc)

/-- Behaviour of the external collaborators during one call of
`onSignOutOtherDevices`.  Each awaited collaborator either settles with a
value (`Except.ok`) or rejects (`Except.error ()`). -/
structure Env where
  /-- `delegatedAuthAccountUrl` captured by the `useSignOut` hook. -/
  delegatedAuthAccountUrl : Option String
  /-- Result of `confirmSignOut(deviceIds.length)`: the user's boolean answer,
  or a rejection of the dialog promise. -/
  confirmSignOut : Except Unit Bool
  /-- Result of `confirmDelegatedAuthSignOut(url, deviceId)`: boolean success
  flag, or a thrown error. -/
  confirmDelegatedAuthSignOut : Except Unit Bool
  /-- Outcome of `deleteDevicesWithInteractiveAuth`: the boolean the completion
  callback reports (resolved through the deferred promise), or a thrown
  error. -/
  deleteDevicesWithInteractiveAuth : Except Unit Bool
  /-- Result of `onSignoutResolvedCallback()`: fulfilment, or rejection. -/
  onSignoutResolvedCallback : Except Unit Unit
deriving DecidableEq

/-- Observable events of one call, in order of occurrence.  The
`invokeCallback` event records the `signingOutDeviceIds` state at the moment
the resolution callback is invoked. -/
inductive Event where
  | logWarn : Event
  | logError : Event
  | showConfirmDialog : Nat → Event
  | showDelegatedDialog : DeviceId → Event
  | callDeleteApi : List DeviceId → Event
  | invokeCallback : List DeviceId → Event
  | addInFlight : List DeviceId → Event
  | removeInFlight : List DeviceId → Event
deriving DecidableEq, Repr

/-- State updater of line 114:
`setSigningOutDeviceIds((s) => [...s, ...deviceIds])`. -/
def addStep (deviceIds : List DeviceId) (signingOutDeviceIds : List DeviceId) :
    List DeviceId :=
  signingOutDeviceIds ++ deviceIds

/-- State updater of lines 136-138:
`setSigningOutDeviceIds((s) => s.filter((d) => !deviceIds.includes(d)))`. -/
def removeStep (deviceIds : List DeviceId) (signingOutDeviceIds : List DeviceId) :
    List DeviceId :=
  signingOutDeviceIds.filter (fun deviceId => !(deviceIds.contains deviceId))

/-- Result of one call of `onSignOutOtherDevices`: the event trace, the final
`signingOutDeviceIds` state, and whether the returned promise fulfils
(`Except.ok ()`) or rejects to the caller (`Except.error ()`). -/
structure RunResult where
  trace : List Event
  signingOutDeviceIds : List DeviceId
  outcome : Except Unit Unit
deriving DecidableEq, Repr

/-- Body of the `try` block after the in-flight marking (lines 116-129),
together with the inner `catch` of the delegated branch (lines 120-122) and
the outer `catch` (lines 130-131): yields the emitted events and the value of
`success` when control reaches the `finally` block.  In both branches a thrown
error is caught (inner catch for the delegated dialog, outer catch for the
deletion API), logged, and leaves `success` at `false`. -/
def tryBody (env : Env) (deviceIds : List DeviceId) : List Event × Bool :=
  if truthyUrl env.delegatedAuthAccountUrl then
    let deviceId := deviceIds.headD ""
    match env.confirmDelegatedAuthSignOut with
    | .ok b => ([.showDelegatedDialog deviceId], b)
    | .error _ => ([.showDelegatedDialog deviceId, .logError], false)
  else
    match env.deleteDevicesWithInteractiveAuth with
    | .ok b => ([.callDeleteApi deviceIds], b)
    | .error _ => ([.callDeleteApi deviceIds, .logError], false)

/-- The `finally` block (lines 132-139): if `success`, await the resolution
callback — a rejection there escapes the `finally` block, so the removal on
line 136 does not run and the error propagates to the caller; otherwise remove
the requested identifiers from `signingOutDeviceIds` and return normally. -/
def finallyStep (env : Env) (success : Bool) (preTrace : List Event)
    (st : List DeviceId) (deviceIds : List DeviceId) : RunResult :=
  if success then
    match env.onSignoutResolvedCallback with
    | .ok _ =>
        ⟨preTrace ++ [.invokeCallback st, .removeInFlight deviceIds],
          removeStep deviceIds st, .ok ()⟩
    | .error e => ⟨preTrace ++ [.invokeCallback st], st, .error e⟩
  else
    ⟨preTrace ++ [.removeInFlight deviceIds], removeStep deviceIds st, .ok ()⟩

/-- Shallow embedding of `onSignOutOtherDevices` (lines 92-140), as a function
of the collaborator behaviour `env`, the current `signingOutDeviceIds` state,
and the requested `deviceIds`.  Mirrors the source: the empty-input guard
(lines 93-95), the delegated-auth single-device guard (lines 98-101), the
confirmation step performed only without delegated auth and outside the
`try` block (lines 105-110, where a rejected dialog promise propagates), the
in-flight marking (line 114), the two deletion branches, and the `finally`
cleanup. -/
def onSignOutOtherDevices (env : Env) (signingOutDeviceIds : List DeviceId)
    (deviceIds : List DeviceId) : RunResult :=
  if deviceIds.length == 0 then
    ⟨[], signingOutDeviceIds, .ok ()⟩
  else if truthyUrl env.delegatedAuthAccountUrl && deviceIds.length != 1 then
    ⟨[.logWarn], signingOutDeviceIds, .ok ()⟩
  else if !truthyUrl env.delegatedAuthAccountUrl then
    match env.confirmSignOut with
    | .error e => ⟨[.showConfirmDialog deviceIds.length], signingOutDeviceIds, .error e⟩
    | .ok false => ⟨[.showConfirmDialog deviceIds.length], signingOutDeviceIds, .ok ()⟩
    | .ok true =>
        let st1 := addStep deviceIds signingOutDeviceIds
        let body := tryBody env deviceIds
        finallyStep env body.2
          ([.showConfirmDialog deviceIds.length, .addInFlight deviceIds] ++ body.1)
          st1 deviceIds
  else
    let st1 := addStep deviceIds signingOutDeviceIds
    let body := tryBody env deviceIds
    finallyStep env body.2 ([.addInFlight deviceIds] ++ body.1) st1 deviceIds

/-- An event is an addition to the in-flight set. -/
def isAddEvent : Event → Bool
  | .addInFlight _ => true
  | _ => false

/-- An event is a removal from the in-flight set. -/
def isRemoveEvent : Event → Bool
  | .removeInFlight _ => true
  | _ => false

/-- An event is an invocation of the resolution callback. -/
def isCallbackEvent : Event → Bool
  | .invokeCallback _ => true
  | _ => false

/-- An event is a network interaction: presenting the delegated-auth logout
dialog (which performs the remote sign-out) or invoking the interactive-auth
deletion API. -/
def isNetworkEvent : Event → Bool
  | .showDelegatedDialog _ => true
  | .callDeleteApi _ => true
  | _ => false

/-- Holds when, scanning the trace in order, an `addInFlight` of exactly the
requested identifiers occurs before any network event (and trivially when no
network event occurs at all). -/
def addBeforeNetwork (deviceIds : List DeviceId) : List Event → Bool
  | [] => true
  | .showDelegatedDialog _ :: _ => false
  | .callDeleteApi _ :: _ => false
  | .addInFlight ids :: _ => ids == deviceIds
  | _ :: rest => addBeforeNetwork deviceIds rest

/-- Holds when, scanning the trace in order, no removal from the in-flight set
occurs before the resolution callback is invoked, and at the moment of that
invocation every requested identifier is in the in-flight state the event
records. -/
def removeOnlyAfterCallback (deviceIds : List DeviceId) : List Event → Bool
  | [] => true
  | .removeInFlight _ :: _ => false
  | .invokeCallback inFlight :: _ => deviceIds.all (fun d => inFlight.contains d)
  | _ :: rest => removeOnlyAfterCallback deviceIds rest

/-- C8: calling `onSignOutOtherDevices` with an empty device-identifier
sequence is a silent no-op — an empty trace (no log, no dialog, no API call),
the in-flight state unchanged, a normal return. -/
theorem C8_empty_input_noop (env : Env) (st : List DeviceId) :
    onSignOutOtherDevices env st [] = ⟨[], st, .ok ()⟩ := by
  simp [onSignOutOtherDevices]

/-- C5: with a delegated-auth context present and more than one requested
identifier, the call aborts with only the diagnostic warning: no dialog, no
deletion API call, no addition to the in-flight set, state unchanged. -/
theorem C5_delegated_multi_rejected (env : Env) (st ids : List DeviceId)
    (hurl : truthyUrl env.delegatedAuthAccountUrl = true)
    (hlen : 1 < ids.length) :
    onSignOutOtherDevices env st ids = ⟨[.logWarn], st, .ok ()⟩ := by
  have h0 : (ids.length == 0) = false := by
    simp only [beq_eq_false_iff_ne, ne_eq]
    omega
  have h1 : (ids.length != 1) = true := by
    simp only [bne_iff_ne, ne_eq]
    omega
  unfold onSignOutOtherDevices
  rw [hurl, h0, h1]
  rfl

/-- Witness for C5 at a concrete input. -/
theorem C5_delegated_multi_rejected_witness :
    onSignOutOtherDevices
        ⟨some "https://auth.example", .ok true, .ok true, .ok true, .ok ()⟩
        [] ["A", "B"] =
      ⟨[.logWarn], [], .ok ()⟩ :=
  C5_delegated_multi_rejected
    ⟨some "https://auth.example", .ok true, .ok true, .ok true, .ok ()⟩
    [] ["A", "B"] rfl (by decide)

/-- C4: with no delegated-auth context and a non-empty request, declining the
confirmation dialog aborts the call: the trace holds only the confirmation
dialog (so the deletion API is never invoked) and the in-flight state is
unchanged. -/
theorem C4_decline_aborts (env : Env) (st ids : List DeviceId)
    (hne : ids ≠ [])
    (hurl : truthyUrl env.delegatedAuthAccountUrl = false)
    (hconf : env.confirmSignOut = .ok false) :
    onSignOutOtherDevices env st ids =
      ⟨[.showConfirmDialog ids.length], st, .ok ()⟩ := by
  have h0 : (ids.length == 0) = false := by
    simp only [beq_eq_false_iff_ne, ne_eq, List.length_eq_zero]
    exact hne
  unfold onSignOutOtherDevices
  rw [hurl, h0, hconf]
  rfl

/-- Witness for C4 at a concrete input. -/
theorem C4_decline_aborts_witness :
    onSignOutOtherDevices ⟨none, .ok false, .ok true, .ok true, .ok ()⟩
        ["P"] ["A", "B"] =
      ⟨[.showConfirmDialog 2], ["P"], .ok ()⟩ :=
  C4_decline_aborts ⟨none, .ok false, .ok true, .ok true, .ok ()⟩
    ["P"] ["A", "B"] (by decide) rfl rfl

/-- Membership in the cleanup step: an identifier survives the removal of
line 136-138 exactly when it was in the state and is not among the just
requested identifiers. -/
theorem mem_removeStep (ids s : List DeviceId) (x : DeviceId) :
    x ∈ removeStep ids s ↔ x ∈ s ∧ x ∉ ids := by
  simp [removeStep, List.mem_filter]

/-- Every requested identifier is contained in the state produced by the
in-flight marking of line 114. -/
theorem all_contains_addStep (ids st : List DeviceId) :
    (ids.all fun d => (addStep ids st).contains d) = true := by
  simp only [addStep, List.all_eq_true]
  intro d hd
  simp only [List.contains, List.elem_eq_mem, decide_eq_true_eq]
  exact List.mem_append.mpr (Or.inr hd)

/-- Computation of the `finally` block when the operation succeeded and the
resolution callback fulfils. -/
theorem finallyStep_success (env : Env) (pre : List Event) (st ids : List DeviceId)
    (hcb : env.onSignoutResolvedCallback = .ok ()) :
    finallyStep env true pre st ids =
      ⟨pre ++ [.invokeCallback st, .removeInFlight ids], removeStep ids st, .ok ()⟩ := by
  unfold finallyStep
  rw [hcb]
  rfl

/-- Computation of the `finally` block when the operation failed. -/
theorem finallyStep_fail (env : Env) (pre : List Event) (st ids : List DeviceId) :
    finallyStep env false pre st ids =
      ⟨pre ++ [.removeInFlight ids], removeStep ids st, .ok ()⟩ := rfl

/-- Computation of the `finally` block when the operation succeeded but the
resolution callback rejects: the removal of line 136 never runs and the error
propagates to the caller. -/
theorem finallyStep_cbthrow (env : Env) (pre : List Event) (st ids : List DeviceId)
    (hcb : env.onSignoutResolvedCallback = .error ()) :
    finallyStep env true pre st ids =
      ⟨pre ++ [.invokeCallback st], st, .error ()⟩ := by
  unfold finallyStep
  rw [hcb]
  rfl

/-- Computation of a non-delegated run in which the user confirms and the
deletion API reports the flag `b`. -/
theorem run_interactive (env : Env) (st ids : List DeviceId) (b : Bool)
    (h0 : (ids.length == 0) = false)
    (hurl : truthyUrl env.delegatedAuthAccountUrl = false)
    (hconf : env.confirmSignOut = .ok true)
    (hdel : env.deleteDevicesWithInteractiveAuth = .ok b) :
    onSignOutOtherDevices env st ids =
      finallyStep env b
        [.showConfirmDialog ids.length, .addInFlight ids, .callDeleteApi ids]
        (addStep ids st) ids := by
  unfold onSignOutOtherDevices tryBody
  rw [hurl, h0, hconf, hdel]
  rfl

/-- Computation of a non-delegated run in which the user confirms and the
deletion API throws: caught by the outer catch, logged, success stays
`false`. -/
theorem run_interactive_err (env : Env) (st ids : List DeviceId)
    (h0 : (ids.length == 0) = false)
    (hurl : truthyUrl env.delegatedAuthAccountUrl = false)
    (hconf : env.confirmSignOut = .ok true)
    (hdel : env.deleteDevicesWithInteractiveAuth = .error ()) :
    onSignOutOtherDevices env st ids =
      finallyStep env false
        [.showConfirmDialog ids.length, .addInFlight ids, .callDeleteApi ids, .logError]
        (addStep ids st) ids := by
  unfold onSignOutOtherDevices tryBody
  rw [hurl, h0, hconf, hdel]
  rfl

/-- Computation of a delegated-auth run on a single device in which the
logout dialog settles with the flag `b`. -/
theorem run_delegated (env : Env) (st : List DeviceId) (d : DeviceId) (b : Bool)
    (hurl : truthyUrl env.delegatedAuthAccountUrl = true)
    (hdeleg : env.confirmDelegatedAuthSignOut = .ok b) :
    onSignOutOtherDevices env st [d] =
      finallyStep env b [.addInFlight [d], .showDelegatedDialog d]
        (addStep [d] st) [d] := by
  unfold onSignOutOtherDevices tryBody
  rw [hurl, hdeleg]
  rfl

/-- Computation of a delegated-auth run on a single device in which the
logout dialog throws: caught by the inner catch, logged, success stays
`false`. -/
theorem run_delegated_err (env : Env) (st : List DeviceId) (d : DeviceId)
    (hurl : truthyUrl env.delegatedAuthAccountUrl = true)
    (hdeleg : env.confirmDelegatedAuthSignOut = .error ()) :
    onSignOutOtherDevices env st [d] =
      finallyStep env false [.addInFlight [d], .showDelegatedDialog d, .logError]
        (addStep [d] st) [d] := by
  unfold onSignOutOtherDevices tryBody
  rw [hurl, hdeleg]
  rfl

/-- C1: for a successful single-device interactive-auth sign-out (non-empty
request, no delegated-auth context, user confirms, deletion API reports
success), the run performs exactly one addition of the device to the
in-flight state, exactly one removal, and exactly one invocation of the
resolution callback; the device is absent from the final in-flight state and
the call returns normally. -/
theorem C1_single_device_success (env : Env) (st : List DeviceId) (d : DeviceId)
    (hurl : env.delegatedAuthAccountUrl = none)
    (hconf : env.confirmSignOut = .ok true)
    (hdel : env.deleteDevicesWithInteractiveAuth = .ok true)
    (hcb : env.onSignoutResolvedCallback = .ok ()) :
    (onSignOutOtherDevices env st [d]).trace.countP isAddEvent = 1 ∧
    (onSignOutOtherDevices env st [d]).trace.countP isRemoveEvent = 1 ∧
    (onSignOutOtherDevices env st [d]).trace.countP isCallbackEvent = 1 ∧
    Event.addInFlight [d] ∈ (onSignOutOtherDevices env st [d]).trace ∧
    d ∉ (onSignOutOtherDevices env st [d]).signingOutDeviceIds ∧
    (onSignOutOtherDevices env st [d]).outcome = .ok () := by
  have hurl' : truthyUrl env.delegatedAuthAccountUrl = false := by rw [hurl]; rfl
  have hrun := run_interactive env st [d] true rfl hurl' hconf hdel
  rw [finallyStep_success env _ _ _ hcb] at hrun
  rw [hrun]
  refine ⟨?_, ?_, ?_, ?_, ?_, rfl⟩ <;>
    simp [isAddEvent, isRemoveEvent, isCallbackEvent, mem_removeStep]

/-- Witness for C1 at a concrete input. -/
theorem C1_single_device_success_witness :
    (onSignOutOtherDevices ⟨none, .ok true, .ok true, .ok true, .ok ()⟩
        [] ["A"]).trace.countP isAddEvent = 1 ∧
    (onSignOutOtherDevices ⟨none, .ok true, .ok true, .ok true, .ok ()⟩
        [] ["A"]).trace.countP isRemoveEvent = 1 ∧
    (onSignOutOtherDevices ⟨none, .ok true, .ok true, .ok true, .ok ()⟩
        [] ["A"]).trace.countP isCallbackEvent = 1 ∧
    Event.addInFlight ["A"] ∈
      (onSignOutOtherDevices ⟨none, .ok true, .ok true, .ok true, .ok ()⟩
        [] ["A"]).trace ∧
    "A" ∉ (onSignOutOtherDevices ⟨none, .ok true, .ok true, .ok true, .ok ()⟩
        [] ["A"]).signingOutDeviceIds ∧
    (onSignOutOtherDevices ⟨none, .ok true, .ok true, .ok true, .ok ()⟩
        [] ["A"]).outcome = .ok () :=
  C1_single_device_success ⟨none, .ok true, .ok true, .ok true, .ok ()⟩
    [] "A" rfl rfl rfl rfl

/-- C2 counterexample: the claim "onSignOutOtherDevices never throws to its
caller for every behaviour of the collaborators" is false.  With no delegated
auth, a confirmed dialog and a successful deletion, a rejecting resolution
callback escapes the `finally` block (line 134 is not guarded by any catch),
so the call rejects to its caller. -/
theorem C2_never_throws_counterexample :
    (onSignOutOtherDevices ⟨none, .ok true, .ok true, .ok true, .error ()⟩
        [] ["A"]).outcome = .error () := rfl

/-- C2 amended: all errors thrown by the delegated-auth logout dialog or by
the interactive-auth deletion API are caught and logged, so the call never
throws provided the confirmation dialog promise and the resolution callback
promise do not reject. -/
theorem C2_no_throw_when_dialog_and_callback_settle (env : Env)
    (st ids : List DeviceId)
    (hconf : env.confirmSignOut ≠ .error ())
    (hcb : env.onSignoutResolvedCallback ≠ .error ()) :
    (onSignOutOtherDevices env st ids).outcome = .ok () := by
  obtain ⟨url, conf, deleg, del, cb⟩ := env
  rcases conf with ⟨⟨⟩⟩ | b
  · exact absurd rfl hconf
  rcases cb with ⟨⟨⟩⟩ | ⟨⟨⟩⟩
  · exact absurd rfl hcb
  rcases deleg with ⟨⟨⟩⟩ | bd <;> rcases del with ⟨⟨⟩⟩ | bv <;>
    cases b <;> (try cases bd) <;> (try cases bv) <;>
      cases h0 : ids.length == 0 <;> cases hu : truthyUrl url <;>
        simp [onSignOutOtherDevices, tryBody, finallyStep, h0, hu] <;>
          (try (split <;> rfl))

/-- Witness for the amended C2 at a concrete input: the deletion API throws,
yet the call returns normally. -/
theorem C2_no_throw_when_dialog_and_callback_settle_witness :
    (onSignOutOtherDevices ⟨none, .ok true, .ok true, .error (), .ok ()⟩
        [] ["A", "B"]).outcome = .ok () :=
  C2_no_throw_when_dialog_and_callback_settle
    ⟨none, .ok true, .ok true, .error (), .ok ()⟩ [] ["A", "B"]
    (fun h => Except.noConfusion h) (fun h => Except.noConfusion h)

/-- C3: for a failing sign-out request — the deletion API reports `false`, or
the delegated-auth logout dialog throws — the resolution callback is never
invoked, every requested identifier is removed from the in-flight state, and
the call returns normally. -/
theorem C3_failure_drains_inflight (env : Env) (st ids : List DeviceId)
    (hne : ids ≠ [])
    (h : (truthyUrl env.delegatedAuthAccountUrl = false ∧
            env.confirmSignOut = .ok true ∧
            env.deleteDevicesWithInteractiveAuth = .ok false) ∨
         (truthyUrl env.delegatedAuthAccountUrl = true ∧ ids.length = 1 ∧
            env.confirmDelegatedAuthSignOut = .error ())) :
    (onSignOutOtherDevices env st ids).trace.countP isCallbackEvent = 0 ∧
    (∀ x ∈ ids, x ∉ (onSignOutOtherDevices env st ids).signingOutDeviceIds) ∧
    (onSignOutOtherDevices env st ids).outcome = .ok () := by
  rcases h with ⟨hurl, hconf, hdel⟩ | ⟨hurl, hlen, hdeleg⟩
  · have h0 : (ids.length == 0) = false := by
      simp only [beq_eq_false_iff_ne, ne_eq, List.length_eq_zero]
      exact hne
    have hrun := run_interactive env st ids false h0 hurl hconf hdel
    rw [finallyStep_fail] at hrun
    rw [hrun]
    refine ⟨?_, ?_, rfl⟩
    · simp [isCallbackEvent]
    · intro x hx hmem
      exact ((mem_removeStep _ _ _).1 hmem).2 hx
  · obtain ⟨d, rfl⟩ := List.length_eq_one.mp hlen
    have hrun := run_delegated_err env st d hurl hdeleg
    rw [finallyStep_fail] at hrun
    rw [hrun]
    refine ⟨?_, ?_, rfl⟩
    · simp [isCallbackEvent]
    · intro x hx hmem
      exact ((mem_removeStep _ _ _).1 hmem).2 hx

/-- Witness for C3 at a concrete input (deletion API reports failure). -/
theorem C3_failure_drains_inflight_witness :
    (onSignOutOtherDevices ⟨none, .ok true, .ok true, .ok false, .ok ()⟩
        ["P"] ["A", "B"]).trace.countP isCallbackEvent = 0 ∧
    (∀ x ∈ (["A", "B"] : List DeviceId),
      x ∉ (onSignOutOtherDevices ⟨none, .ok true, .ok true, .ok false, .ok ()⟩
        ["P"] ["A", "B"]).signingOutDeviceIds) ∧
    (onSignOutOtherDevices ⟨none, .ok true, .ok true, .ok false, .ok ()⟩
        ["P"] ["A", "B"]).outcome = .ok () :=
  C3_failure_drains_inflight ⟨none, .ok true, .ok true, .ok false, .ok ()⟩
    ["P"] ["A", "B"] (by decide) (Or.inl ⟨rfl, rfl, rfl⟩)

/-- C6: with two requests over disjoint identifier sets both marked in-flight
(two applications of the line-114 updater), the cleanup of the first request
(the line-136 updater with its own identifiers) keeps every identifier of the
other, still-pending request in the state, removes every identifier of its
own request, and in general removes exactly the identifiers of its own
request. -/
theorem C6_disjoint_requests_frame (ids1 ids2 s : List DeviceId)
    (hdisj : ∀ x ∈ ids1, x ∉ ids2) :
    (∀ d ∈ ids2, d ∈ removeStep ids1 (addStep ids2 (addStep ids1 s))) ∧
    (∀ d ∈ ids1, d ∉ removeStep ids1 (addStep ids2 (addStep ids1 s))) ∧
    (∀ d, d ∈ removeStep ids1 (addStep ids2 (addStep ids1 s)) ↔
        d ∈ addStep ids2 (addStep ids1 s) ∧ d ∉ ids1) := by
  refine ⟨?_, ?_, fun d => mem_removeStep _ _ _⟩
  · intro d hd
    rw [mem_removeStep]
    exact ⟨List.mem_append.mpr (Or.inr hd), fun h1 => hdisj d h1 hd⟩
  · intro d hd hmem
    exact ((mem_removeStep _ _ _).1 hmem).2 hd

/-- Witness for C6 at a concrete input. -/
theorem C6_disjoint_requests_frame_witness :
    (∀ d ∈ (["B"] : List DeviceId),
      d ∈ removeStep ["A"] (addStep ["B"] (addStep ["A"] []))) ∧
    (∀ d ∈ (["A"] : List DeviceId),
      d ∉ removeStep ["A"] (addStep ["B"] (addStep ["A"] []))) ∧
    (∀ d, d ∈ removeStep ["A"] (addStep ["B"] (addStep ["A"] [])) ↔
        d ∈ addStep ["B"] (addStep ["A"] []) ∧ d ∉ (["A"] : List DeviceId)) :=
  C6_disjoint_requests_frame ["A"] ["B"] [] (by decide)

/-- C9: the in-flight tracking state is a list that can hold duplicates.
When two requests overlap on an identifier, the two line-114 markings put two
copies of it into the state, and the line-136 cleanup of the first request
filters out every occurrence of that identifier — including the copy that
belongs to the other, still-pending request. -/
theorem C9_overlap_duplicates (ids1 ids2 s : List DeviceId) (d : DeviceId)
    (h1 : d ∈ ids1) (h2 : d ∈ ids2) :
    2 ≤ (addStep ids2 (addStep ids1 s)).count d ∧
    d ∉ removeStep ids1 (addStep ids2 (addStep ids1 s)) := by
  constructor
  · have c1 : 0 < ids1.count d := List.count_pos_iff.mpr h1
    have c2 : 0 < ids2.count d := List.count_pos_iff.mpr h2
    simp only [addStep, List.count_append]
    omega
  · intro hmem
    exact ((mem_removeStep _ _ _).1 hmem).2 h1

/-- Witness for C9 at a concrete input. -/
theorem C9_overlap_duplicates_witness :
    2 ≤ (addStep ["A"] (addStep ["A"] [])).count "A" ∧
    "A" ∉ removeStep ["A"] (addStep ["A"] (addStep ["A"] [])) :=
  C9_overlap_duplicates ["A"] ["A"] [] "A" (by decide) (by decide)

/-- C7: for every request that passes the emptiness, delegated-auth-size and
user-confirmation guards, the requested identifiers are added to the
in-flight state before any network interaction (the delegated-auth dialog or
the deletion API call), and exactly one network interaction occurs. -/
theorem C7_inflight_before_network (env : Env) (st ids : List DeviceId)
    (hne : ids ≠ [])
    (h : (truthyUrl env.delegatedAuthAccountUrl = false ∧
            env.confirmSignOut = .ok true) ∨
         (truthyUrl env.delegatedAuthAccountUrl = true ∧ ids.length = 1)) :
    addBeforeNetwork ids (onSignOutOtherDevices env st ids).trace = true ∧
    (onSignOutOtherDevices env st ids).trace.countP isNetworkEvent = 1 := by
  rcases h with ⟨hurl, hconf⟩ | ⟨hurl, hlen⟩
  · have h0 : (ids.length == 0) = false := by
      simp only [beq_eq_false_iff_ne, ne_eq, List.length_eq_zero]
      exact hne
    rcases hdel : env.deleteDevicesWithInteractiveAuth with ⟨⟨⟩⟩ | b
    · have hrun := run_interactive_err env st ids h0 hurl hconf hdel
      rw [finallyStep_fail] at hrun
      rw [hrun]
      constructor <;> simp [addBeforeNetwork, isNetworkEvent]
    · have hrun := run_interactive env st ids b h0 hurl hconf hdel
      cases b
      · rw [finallyStep_fail] at hrun
        rw [hrun]
        constructor <;> simp [addBeforeNetwork, isNetworkEvent]
      · rcases hcb : env.onSignoutResolvedCallback with ⟨⟨⟩⟩ | ⟨⟨⟩⟩
        · rw [finallyStep_cbthrow env _ _ _ hcb] at hrun
          rw [hrun]
          constructor <;> simp [addBeforeNetwork, isNetworkEvent]
        · rw [finallyStep_success env _ _ _ hcb] at hrun
          rw [hrun]
          constructor <;> simp [addBeforeNetwork, isNetworkEvent]
  · obtain ⟨d, rfl⟩ := List.length_eq_one.mp hlen
    rcases hdeleg : env.confirmDelegatedAuthSignOut with ⟨⟨⟩⟩ | b
    · have hrun := run_delegated_err env st d hurl hdeleg
      rw [finallyStep_fail] at hrun
      rw [hrun]
      constructor <;> simp [addBeforeNetwork, isNetworkEvent]
    · have hrun := run_delegated env st d b hurl hdeleg
      cases b
      · rw [finallyStep_fail] at hrun
        rw [hrun]
        constructor <;> simp [addBeforeNetwork, isNetworkEvent]
      · rcases hcb : env.onSignoutResolvedCallback with ⟨⟨⟩⟩ | ⟨⟨⟩⟩
        · rw [finallyStep_cbthrow env _ _ _ hcb] at hrun
          rw [hrun]
          constructor <;> simp [addBeforeNetwork, isNetworkEvent]
        · rw [finallyStep_success env _ _ _ hcb] at hrun
          rw [hrun]
          constructor <;> simp [addBeforeNetwork, isNetworkEvent]

/-- Witness for C7 at a concrete input. -/
theorem C7_inflight_before_network_witness :
    addBeforeNetwork ["A", "B"]
      (onSignOutOtherDevices ⟨none, .ok true, .ok true, .ok true, .ok ()⟩
        [] ["A", "B"]).trace = true ∧
    (onSignOutOtherDevices ⟨none, .ok true, .ok true, .ok true, .ok ()⟩
        [] ["A", "B"]).trace.countP isNetworkEvent = 1 :=
  C7_inflight_before_network ⟨none, .ok true, .ok true, .ok true, .ok ()⟩
    [] ["A", "B"] (by decide) (Or.inl ⟨rfl, rfl⟩)

/-- C10: on a successful sign-out whose resolution callback fulfils, no
removal from the in-flight state happens before the callback is invoked, the
requested identifiers are all in the in-flight state at the moment of the
invocation, and exactly one removal happens (afterwards). -/
theorem C10_remove_after_callback (env : Env) (st ids : List DeviceId)
    (hne : ids ≠ [])
    (hcb : env.onSignoutResolvedCallback = .ok ())
    (h : (truthyUrl env.delegatedAuthAccountUrl = false ∧
            env.confirmSignOut = .ok true ∧
            env.deleteDevicesWithInteractiveAuth = .ok true) ∨
         (truthyUrl env.delegatedAuthAccountUrl = true ∧ ids.length = 1 ∧
            env.confirmDelegatedAuthSignOut = .ok true)) :
    removeOnlyAfterCallback ids (onSignOutOtherDevices env st ids).trace = true ∧
    (onSignOutOtherDevices env st ids).trace.countP isRemoveEvent = 1 := by
  rcases h with ⟨hurl, hconf, hdel⟩ | ⟨hurl, hlen, hdeleg⟩
  · have h0 : (ids.length == 0) = false := by
      simp only [beq_eq_false_iff_ne, ne_eq, List.length_eq_zero]
      exact hne
    have hrun := run_interactive env st ids true h0 hurl hconf hdel
    rw [finallyStep_success env _ _ _ hcb] at hrun
    rw [hrun]
    constructor
    · simp only [removeOnlyAfterCallback]
      exact all_contains_addStep ids st
    · simp [isRemoveEvent]
  · obtain ⟨d, rfl⟩ := List.length_eq_one.mp hlen
    have hrun := run_delegated env st d true hurl hdeleg
    rw [finallyStep_success env _ _ _ hcb] at hrun
    rw [hrun]
    constructor
    · simp only [removeOnlyAfterCallback]
      exact all_contains_addStep [d] st
    · simp [isRemoveEvent]

/-- Witness for C10 at a concrete input. -/
theorem C10_remove_after_callback_witness :
    removeOnlyAfterCallback ["A", "B"]
      (onSignOutOtherDevices ⟨none, .ok true, .ok true, .ok true, .ok ()⟩
        [] ["A", "B"]).trace = true ∧
    (onSignOutOtherDevices ⟨none, .ok true, .ok true, .ok true, .ok ()⟩
        [] ["A", "B"]).trace.countP isRemoveEvent = 1 :=
  C10_remove_after_callback ⟨none, .ok true, .ok true, .ok true, .ok ()⟩
    [] ["A", "B"] (by decide) rfl (Or.inl ⟨rfl, rfl, rfl⟩)
